import Mathlib

/-!
Verification development for the `trains` resource monitor
(`src/trains/utilities/resource_monitor.py`).

The daemon loop of `ResourceMonitor._daemon`, the sample fold
(`_update_readouts`), the averaging helpers (`_get_average_readouts`,
`_clear_readouts`) and the raw snapshot collector (`_machine_stats`) are
embedded as pure Lean functions.  Python floats are modelled as rationals,
Python ints as integers; a Python call that may raise is modelled by an
`Except Unit` input (the `except: pass` handlers in the source become the
`.error` branches).  Wall-clock readings, the external iteration counter,
the tensorboard probe and the raw OS/driver readings are inputs of the
step functions, since they come from outside the monitored code.
-/

namespace TrainsMonitor

/-- Python dict lookup `m.get(k, d)` on an insertion-ordered association
list. -/
def getD : List (String × ℚ) → String → ℚ → ℚ
  | [], _, d => d
  | p :: rest, k, d => if p.1 = k then p.2 else getD rest k d

/-- Python dict store `m[k] = v` on an insertion-ordered association list:
replaces the value of an existing key in place, otherwise appends. -/
def setKey : List (String × ℚ) → String → ℚ → List (String × ℚ)
  | [], k, v => [(k, v)]
  | p :: rest, k, v => if p.1 = k then (k, v) :: rest else p :: setKey rest k v

/-- Python's `str.startswith`. -/
def strStarts (s p : String) : Bool := p.toList.isPrefixOf s.toList

/-- Python's `str.endswith`. -/
def strEnds (s p : String) : Bool := p.toList.isSuffixOf s.toList

/-- Python's `round` on an exact value: round half to even. -/
def pyRound (q : ℚ) : ℤ :=
  if q - Int.floor q = 1/2 then
    (if (Int.floor q) % 2 = 0 then Int.floor q else Int.floor q + 1)
  else round q

/-- Python's `int(...)` on an exact value: truncation toward zero. -/
def intTrunc (q : ℚ) : ℤ := if 0 ≤ q then Int.floor q else Int.ceil q

/-- `round(v*1000)/1000.` from `_daemon` (line 109): three decimal places. -/
def round3 (v : ℚ) : ℚ := (pyRound (v * 1000) : ℚ) / 1000

/-- The sampling state of a `ResourceMonitor` instance: `_readouts`,
`_num_readouts`, `_previous_readouts`, `_previous_readouts_ts`. -/
structure SamplerState where
  readouts : List (String × ℚ)
  num_readouts : ℕ
  previous_readouts : List (String × ℚ)
  previous_readouts_ts : ℚ
  deriving Repr, DecidableEq

/-- One iteration of the loop body of `_update_readouts` (lines 119-124):
cumulative `_mbs` keys are replaced by `(v - previous.get(k, v)) / elapsed`
before being added to the running sum. -/
def foldStep (prev : List (String × ℚ)) (elapsed : ℚ)
    (acc : List (String × ℚ)) (kv : String × ℚ) : List (String × ℚ) :=
  let v := if strEnds kv.1 "_mbs" then (kv.2 - getD prev kv.1 kv.2) / elapsed else kv.2
  setKey acc kv.1 (getD acc kv.1 0 + v)

/-- `_update_readouts` (lines 115-126) after `_machine_stats` has returned
the snapshot `snap` at wall-clock time `now`. -/
def update_readouts (st : SamplerState) (snap : List (String × ℚ)) (now : ℚ) :
    SamplerState :=
  { readouts := snap.foldl (foldStep st.previous_readouts (now - st.previous_readouts_ts)) st.readouts,
    num_readouts := st.num_readouts + 1,
    previous_readouts := snap,
    previous_readouts_ts := now }

/-- `_get_average_readouts` (lines 131-133). -/
def get_average_readouts (st : SamplerState) : List (String × ℚ) :=
  st.readouts.map (fun kv => (kv.1, kv.2 / (st.num_readouts : ℚ)))

/-- `_clear_readouts` (lines 135-137). -/
def clear_readouts (st : SamplerState) : SamplerState :=
  { st with readouts := [], num_readouts := 0 }

/-- The local variables of `_daemon` that drive iteration reconciliation:
`seconds_since_started`, `last_iteration`, `last_iteration_ts`,
`last_iteration_interval`, `repeated_iterations`,
`fallback_to_sec_as_iterations` (`none` = Python `None`, undecided). -/
structure IterState where
  seconds_since_started : ℤ
  last_iteration : ℤ
  last_iteration_ts : ℤ
  last_iteration_interval : Option (ℤ × ℤ)
  repeated_iterations : ℕ
  fallback : Option Bool
  deriving Repr, DecidableEq

/-- The iteration-reconciliation part of one report boundary
(`_daemon` lines 72-100).  Inputs: `tb` is `IsTensorboardInit.tensorboard_used()`,
`polled` is `self._task.get_last_iteration()`, `elapsed` is
`time() - last_report`.  Returns the updated state and the iteration the
boundary reports at. -/
def report_core (wait : ℚ) (tb : Bool) (polled : ℤ) (elapsed : ℚ)
    (it : IterState) : IterState × ℤ :=
  let s := it.seconds_since_started + pyRound elapsed
  let fb0 : Option Bool :=
    match it.fallback with
    | some b => some b
    | none => if tb then some false else if wait ≤ (s : ℚ) then some true else none
  if fb0 = some true then
    ({ it with seconds_since_started := s, fallback := fb0 }, s)
  else
    if polled = it.last_iteration then
      let iter2 : ℤ :=
        match it.last_iteration_interval with
        | some dt =>
            polled + intTrunc ((19/20 : ℚ) * (dt.1 : ℚ)
              * ((s - it.last_iteration_ts : ℤ) : ℚ) / (dt.2 : ℚ))
        | none => polled + 1
      ({ it with seconds_since_started := s,
                 repeated_iterations := it.repeated_iterations + 1,
                 fallback := fb0 }, iter2)
    else
      ({ it with seconds_since_started := s,
                 last_iteration_interval := some (polled - it.last_iteration, s - it.last_iteration_ts),
                 last_iteration_ts := s,
                 last_iteration := polled,
                 repeated_iterations := 0,
                 fallback := some false }, polled)

/-- Host-side raw readings consumed by `_machine_stats`: the `psutil`
values (per-core cpu percentages, virtual memory in bytes, disk usage
percentage, core temperatures, cumulative network/disk byte counters). -/
structure HostReadings where
  cpu_percents : List ℚ
  mem_used : ℚ
  mem_avail : ℚ
  disk_use_percent : ℚ
  coretemps : List ℚ
  net_sent : ℚ
  net_recv : ℚ
  io_read : ℚ
  io_write : ℚ
  deriving Repr, DecidableEq

/-- One per-device reading of a successful `gpustat.new_query()`. -/
structure GpuReading where
  temperature : ℚ
  utilization : ℚ
  mem_used : ℚ
  mem_total : ℚ
  deriving Repr, DecidableEq

/-- The accelerator health fields `_gpustat` (as an enabled flag) and
`_gpustat_fail`. -/
structure GpuState where
  enabled : Bool
  fail : ℕ
  deriving Repr, DecidableEq

/-- `bytes_to_megabytes` (lines 150-151). -/
def bytes_to_megabytes (x : ℚ) : ℚ := x / (1024 ^ 2)

/-- The host part of `_machine_stats` (lines 143-170). -/
def host_stats (h : HostReadings) : List (String × ℚ) :=
  [("cpu_usage", h.cpu_percents.sum / (h.cpu_percents.length : ℚ)),
   ("memory_used_gb", bytes_to_megabytes h.mem_used / 1024),
   ("memory_free_gb", bytes_to_megabytes h.mem_avail / 1024),
   ("disk_free_percent", 100 - h.disk_use_percent)]
  ++ (match h.coretemps with
      | [] => []
      | t :: ts => [("cpu_temperature", ts.foldl max t)])
  ++ [("network_tx_mbs", bytes_to_megabytes h.net_sent),
      ("network_rx_mbs", bytes_to_megabytes h.net_recv),
      ("io_read_mbs", bytes_to_megabytes h.io_read),
      ("io_write_mbs", bytes_to_megabytes h.io_write)]

/-- The per-device gpu keys added on a successful query (lines 176-182). -/
def gpu_stats (gpus : List GpuReading) : List (String × ℚ) :=
  (gpus.enum.map (fun ig =>
    [("gpu_" ++ toString ig.1 ++ "_temperature", ig.2.temperature),
     ("gpu_" ++ toString ig.1 ++ "_utilization", ig.2.utilization),
     ("gpu_" ++ toString ig.1 ++ "_mem_usage", 100 * ig.2.mem_used / ig.2.mem_total),
     ("gpu_" ++ toString ig.1 ++ "_mem_free_gb", (ig.2.mem_total - ig.2.mem_used) / 1024),
     ("gpu_" ++ toString ig.1 ++ "_mem_used_gb", ig.2.mem_used / 1024)])).flatten

/-- `_machine_stats` (lines 139-191).  `gq` is the outcome of
`gpustat.new_query()`; its `except` handler increments `_gpustat_fail` and
switches `_gpustat` off once the counter reaches 3 (lines 183-189). -/
def machine_stats (h : HostReadings) (gq : Except Unit (List GpuReading))
    (g : GpuState) : List (String × ℚ) × GpuState :=
  if g.enabled then
    match gq with
    | .ok gpus => (host_stats h ++ gpu_stats gpus, g)
    | .error _ =>
        let f := g.fail + 1
        if 3 ≤ f then (host_stats h, { enabled := false, fail := f })
        else (host_stats h, { enabled := true, fail := f })
  else (host_stats h, g)

/-- The whole mutable state of one daemon run. -/
structure DaemonState where
  sampler : SamplerState
  gpu : GpuState
  iter : IterState
  deriving Repr, DecidableEq

/-- An emission of `logger.report_scalar(title, series, iteration, value)`. -/
structure Emission where
  title : String
  series : String
  iteration : ℤ
  value : ℚ
  deriving Repr, DecidableEq

/-- One full report boundary of `_daemon` (lines 70-113): average the
accumulated readouts, reconcile the iteration, and — only when the
fallback mode is decided (`is not None`, line 103) — emit one scalar per
metric and clear the accumulator. -/
def report_step (wait : ℚ) (tb : Bool) (polled : ℤ) (elapsed : ℚ)
    (st : DaemonState) : DaemonState × List Emission :=
  let avg := get_average_readouts st.sampler
  let rc := report_core wait tb polled elapsed st.iter
  if rc.1.fallback.isSome then
    ({ st with iter := rc.1, sampler := clear_readouts st.sampler },
     avg.map (fun kv =>
       { title := if strStarts kv.1 "gpu_" then ":monitor:gpu" else ":monitor:machine",
         series := kv.1, iteration := rc.2, value := round3 kv.2 }))
  else
    ({ st with iter := rc.1 }, [])

/-- External events driving the daemon loop: a sampling tick (whose
collection either returns host readings plus a gpu-query outcome, or
raises — the `except: pass` of lines 65-68), or a report boundary. -/
inductive Ev where
  | sample (res : Except Unit (HostReadings × Except Unit (List GpuReading))) (now : ℚ)
  | report (tb : Bool) (polled : ℤ) (elapsed : ℚ)
  deriving Repr

/-- One step of the daemon loop. -/
def dstep (wait : ℚ) (st : DaemonState) : Ev → DaemonState × List Emission
  | .sample (.error _) _ => (st, [])
  | .sample (.ok hg) now =>
      ({ st with
          sampler := update_readouts st.sampler (machine_stats hg.1 hg.2 st.gpu).1 now,
          gpu := (machine_stats hg.1 hg.2 st.gpu).2 }, [])
  | .report tb polled elapsed => report_step wait tb polled elapsed st

/-- Running the daemon over a list of events. -/
def run (wait : ℚ) (st : DaemonState) : List Ev → DaemonState
  | [] => st
  | ev :: evs => run wait (dstep wait st ev).1 evs

/-- The snapshots returned by `_machine_stats` along a run (one per
successful sampling tick). -/
def runSnaps (wait : ℚ) (st : DaemonState) : List Ev → List (List (String × ℚ))
  | [] => []
  | ev :: evs =>
      (match ev with
       | .sample (.ok hg) _ => [(machine_stats hg.1 hg.2 st.gpu).1]
       | _ => []) ++ runSnaps wait (dstep wait st ev).1 evs

/-- The state set up by `__init__` and the initialization of the local
variables of `_daemon` (lines 26-33, 50-56).  `gpuAvailable` records
whether the `gpustat` import succeeded; `ts0` is the construction-time
`time()` stored in `_previous_readouts_ts`. -/
def initState (gpuAvailable : Bool) (ts0 : ℚ) : DaemonState :=
  { sampler := { readouts := [], num_readouts := 0,
                 previous_readouts := [], previous_readouts_ts := ts0 },
    gpu := { enabled := gpuAvailable, fail := 0 },
    iter := { seconds_since_started := 0, last_iteration := 0, last_iteration_ts := 0,
              last_iteration_interval := none, repeated_iterations := 0,
              fallback := none } }

/-- Host readings used by the concrete traces below. -/
def exHost : HostReadings :=
  { cpu_percents := [50], mem_used := 0, mem_avail := 0, disk_use_percent := 10,
    coretemps := [], net_sent := 0, net_recv := 0, io_read := 0, io_write := 0 }

/-- A sampling tick whose gpu query fails (or is disabled). -/
def sampleOk (now : ℚ) : Ev := .sample (.ok (exHost, .error ())) now

/-- A sampling tick whose gpu query succeeds with one device. -/
def sampleGpu (now : ℚ) : Ev :=
  .sample (.ok (exHost, .ok [{ temperature := 70, utilization := 50, mem_used := 100, mem_total := 200 }])) now

/-- A fresh sampler state, as set up by `__init__` with construction time 0. -/
def c4st : SamplerState :=
  { readouts := [], num_readouts := 0, previous_readouts := [], previous_readouts_ts := 0 }

/-- A one-key snapshot carrying a cumulative counter. -/
def c4snap : List (String × ℚ) := [("network_tx_mbs", 7)]

/-- A daemon state whose fallback mode has resolved to seconds. -/
def c5st : DaemonState :=
  { sampler := { readouts := [], num_readouts := 0, previous_readouts := [],
                 previous_readouts_ts := 0 },
    gpu := { enabled := false, fail := 0 },
    iter := { seconds_since_started := 7, last_iteration := 0, last_iteration_ts := 0,
              last_iteration_interval := none, repeated_iterations := 0,
              fallback := some true } }

/-- An iteration state in seconds mode. -/
def c6it : IterState :=
  { seconds_since_started := 4, last_iteration := 0, last_iteration_ts := 0,
    last_iteration_interval := none, repeated_iterations := 0, fallback := some true }

/-- An iteration state in external mode with a recorded interval `(10, 10)`
and a counter stalled at 10. -/
def c2it : IterState :=
  { seconds_since_started := 13, last_iteration := 10, last_iteration_ts := 10,
    last_iteration_interval := some (10, 10), repeated_iterations := 0,
    fallback := some false }

/-- The accumulator invariant: the fold count is zero exactly when the sums
map is empty. -/
def accInv (s : SamplerState) : Prop := s.num_readouts = 0 ↔ s.readouts = []

/-- The accelerator-health invariant: a failure count of 3 or more implies
querying has been switched off. -/
def gpuInv (g : GpuState) : Prop := 3 ≤ g.fail → g.enabled = false

lemma foldStep_eq (prev : List (String × ℚ)) (e : ℚ) (acc : List (String × ℚ))
    (kv : String × ℚ) :
    foldStep prev e acc kv
      = setKey acc kv.1 (getD acc kv.1 0
          + (if strEnds kv.1 "_mbs" then (kv.2 - getD prev kv.1 kv.2) / e else kv.2)) := rfl

lemma getD_setKey_self (m : List (String × ℚ)) (k : String) (v d : ℚ) :
    getD (setKey m k v) k d = v := by
  induction m with
  | nil => simp [setKey, getD]
  | cons p rest ih =>
      by_cases h : p.1 = k
      · simp [setKey, getD, h]
      · simp [setKey, getD, h, ih]

lemma getD_setKey_ne (m : List (String × ℚ)) (q k : String) (v d : ℚ) (h : q ≠ k) :
    getD (setKey m q v) k d = getD m k d := by
  induction m with
  | nil => simp [setKey, getD, h]
  | cons p rest ih =>
      by_cases hp : p.1 = q
      · simp [setKey, getD, hp, h]
      · simp [setKey, getD, hp, ih]

lemma setKey_ne_nil (m : List (String × ℚ)) (k : String) (v : ℚ) :
    setKey m k v ≠ [] := by
  cases m with
  | nil => simp [setKey]
  | cons p rest => simp only [setKey]; split <;> simp

lemma foldl_foldStep_ne_nil (prev : List (String × ℚ)) (e : ℚ)
    (l acc : List (String × ℚ)) (h : acc ≠ []) :
    l.foldl (foldStep prev e) acc ≠ [] := by
  induction l generalizing acc with
  | nil => simpa using h
  | cons p rest ih =>
      rw [List.foldl_cons]
      exact ih _ (by rw [foldStep_eq]; exact setKey_ne_nil _ _ _)

lemma getD_of_not_mem (m : List (String × ℚ)) (k : String) (d : ℚ)
    (h : k ∉ m.map Prod.fst) : getD m k d = d := by
  induction m with
  | nil => rfl
  | cons p rest ih =>
      simp only [List.map_cons, List.mem_cons, not_or] at h
      have h1 : p.1 ≠ k := fun hh => h.1 hh.symm
      simp [getD, h1, ih h.2]

lemma getD_foldl_not_mem (prev : List (String × ℚ)) (e : ℚ) (l : List (String × ℚ))
    (acc : List (String × ℚ)) (k : String) (d : ℚ) (h : k ∉ l.map Prod.fst) :
    getD (l.foldl (foldStep prev e) acc) k d = getD acc k d := by
  induction l generalizing acc with
  | nil => rfl
  | cons p rest ih =>
      simp only [List.map_cons, List.mem_cons, not_or] at h
      rw [List.foldl_cons, ih _ h.2, foldStep_eq,
        getD_setKey_ne _ _ _ _ _ (fun hh => h.1 hh.symm)]

lemma getD_foldl_mem (prev : List (String × ℚ)) (e : ℚ) (l : List (String × ℚ))
    (acc : List (String × ℚ)) (k : String) (v : ℚ)
    (hnd : (l.map Prod.fst).Nodup) (hm : (k, v) ∈ l) :
    getD (l.foldl (foldStep prev e) acc) k 0
      = getD acc k 0 + (if strEnds k "_mbs" then (v - getD prev k v) / e else v) := by
  induction l generalizing acc with
  | nil => cases hm
  | cons p rest ih =>
      rw [List.foldl_cons]
      have hnd0 : p.1 ∉ rest.map Prod.fst ∧ (rest.map Prod.fst).Nodup := by
        rw [List.map_cons, List.nodup_cons] at hnd; exact hnd
      rcases List.mem_cons.mp hm with hp | hr
      · have hk : k ∉ rest.map Prod.fst := by
          have : k = p.1 := by rw [← hp]
          rw [this]
          exact hnd0.1
        rw [getD_foldl_not_mem _ _ _ _ _ _ hk, foldStep_eq, ← hp, getD_setKey_self]
      · have hkm : k ∈ rest.map Prod.fst := List.mem_map.mpr ⟨(k, v), hr, rfl⟩
        have hne : p.1 ≠ k := fun hh => hnd0.1 (hh ▸ hkm)
        rw [ih _ hnd0.2 hr, foldStep_eq, getD_setKey_ne _ _ _ _ _ hne]

lemma getD_map_div (l : List (String × ℚ)) (c : ℚ) (k : String) :
    getD (l.map (fun kv => (kv.1, kv.2 / c))) k 0 = getD l k 0 / c := by
  induction l with
  | nil => simp [getD]
  | cons p rest ih => by_cases h : p.1 = k <;> simp [getD, h, ih]

/-- C3: a failed collection (the `except Exception: pass` around
`_update_readouts`, lines 64-68) leaves every piece of the sampling state —
sums, fold count, previous snapshot and its timestamp — and indeed the whole
daemon state, unchanged. -/
theorem c3_failed_fold_state_unchanged (wait : ℚ) (st : DaemonState) (now : ℚ) :
    ((dstep wait st (.sample (.error ()) now)).1).sampler.readouts = st.sampler.readouts
    ∧ ((dstep wait st (.sample (.error ()) now)).1).sampler.num_readouts = st.sampler.num_readouts
    ∧ ((dstep wait st (.sample (.error ()) now)).1).sampler.previous_readouts
        = st.sampler.previous_readouts
    ∧ ((dstep wait st (.sample (.error ()) now)).1).sampler.previous_readouts_ts
        = st.sampler.previous_readouts_ts
    ∧ (dstep wait st (.sample (.error ()) now)).1 = st :=
  ⟨rfl, rfl, rfl, rfl, rfl⟩

/-- C4: for a cumulative-counter key (suffix `_mbs`) present in the
snapshot, the value folded into the accumulator is exactly
`(current - previous) / elapsed`, where `previous` is the raw reading kept
from the preceding fold and `elapsed` the wall time since it; the raw
snapshot (not the rate) becomes the new baseline; and on the first
observation of the key the folded value is exactly 0. -/
theorem c4_cumulative_rate (st : SamplerState) (snap : List (String × ℚ)) (now : ℚ)
    (k : String) (v : ℚ)
    (hnd : (snap.map Prod.fst).Nodup) (hm : (k, v) ∈ snap)
    (hmbs : strEnds k "_mbs" = true)
    (_ht : st.previous_readouts_ts < now) :
    getD (update_readouts st snap now).readouts k 0
      = getD st.readouts k 0
        + (v - getD st.previous_readouts k v) / (now - st.previous_readouts_ts)
    ∧ (update_readouts st snap now).previous_readouts = snap
    ∧ (k ∉ st.previous_readouts.map Prod.fst →
        getD (update_readouts st snap now).readouts k 0 = getD st.readouts k 0) := by
  have h1 : getD (update_readouts st snap now).readouts k 0
      = getD st.readouts k 0
        + (v - getD st.previous_readouts k v) / (now - st.previous_readouts_ts) := by
    show getD (snap.foldl (foldStep st.previous_readouts (now - st.previous_readouts_ts))
        st.readouts) k 0 = _
    rw [getD_foldl_mem _ _ _ _ _ _ hnd hm, if_pos hmbs]
  refine ⟨h1, rfl, fun hab => ?_⟩
  rw [h1, getD_of_not_mem _ _ _ hab, sub_self, zero_div, add_zero]

lemma host_stats_ne_nil (h : HostReadings) : host_stats h ≠ [] := by
  rcases hc : h.coretemps with _ | ⟨t, ts⟩ <;> simp [host_stats, hc]

lemma machine_stats_fst_ne_nil (h : HostReadings) (gq : Except Unit (List GpuReading))
    (g : GpuState) : (machine_stats h gq g).1 ≠ [] := by
  have hh := host_stats_ne_nil h
  rcases gq with e | gpus <;> by_cases he : g.enabled <;>
    simp [machine_stats, he, List.append_eq_nil, hh]
  split <;> simp [hh]

lemma update_readouts_ne_nil (s : SamplerState) (snap : List (String × ℚ)) (now : ℚ)
    (hs : snap ≠ []) : (update_readouts s snap now).readouts ≠ [] := by
  rcases snap with _ | ⟨p, rest⟩
  · exact absurd rfl hs
  · show (p :: rest).foldl _ s.readouts ≠ []
    rw [List.foldl_cons]
    exact foldl_foldStep_ne_nil _ _ _ _ (by rw [foldStep_eq]; exact setKey_ne_nil _ _ _)

lemma report_step_iter (wait : ℚ) (tb : Bool) (p : ℤ) (e : ℚ) (st : DaemonState) :
    ((report_step wait tb p e st).1).iter = (report_core wait tb p e st.iter).1 := by
  simp only [report_step]
  split <;> rfl

lemma report_step_gpu (wait : ℚ) (tb : Bool) (p : ℤ) (e : ℚ) (st : DaemonState) :
    ((report_step wait tb p e st).1).gpu = st.gpu := by
  simp only [report_step]
  split <;> rfl

lemma accInv_dstep (wait : ℚ) (st : DaemonState) (ev : Ev) (h : accInv st.sampler) :
    accInv ((dstep wait st ev).1).sampler := by
  cases ev with
  | sample res now =>
      rcases res with e | hg
      · exact h
      · refine ⟨fun hn => absurd hn (Nat.succ_ne_zero _), fun hr => absurd hr ?_⟩
        exact update_readouts_ne_nil _ _ _ (machine_stats_fst_ne_nil _ _ _)
  | report tb p e =>
      show accInv ((report_step wait tb p e st).1).sampler
      simp only [report_step]
      split
      · exact ⟨fun _ => rfl, fun _ => rfl⟩
      · exact h

lemma accInv_run (wait : ℚ) (st : DaemonState) (evs : List Ev) (h : accInv st.sampler) :
    accInv (run wait st evs).sampler := by
  induction evs generalizing st with
  | nil => exact h
  | cons ev evs ih => exact ih _ (accInv_dstep _ _ _ h)

/-- C9: in every state reachable from construction, the fold count
`_num_readouts` is zero exactly when the accumulator `_readouts` is empty;
consequently whenever `_readouts` is nonempty — the only case in which
`_get_average_readouts` evaluates its division on a key — the divisor
`_num_readouts` is nonzero. -/
theorem c9_count_zero_iff_empty (wait ts0 : ℚ) (gb : Bool) (evs : List Ev)
    (st : DaemonState) (hst : st = run wait (initState gb ts0) evs) :
    (st.sampler.num_readouts = 0 ↔ st.sampler.readouts = [])
    ∧ (st.sampler.readouts ≠ [] → st.sampler.num_readouts ≠ 0) := by
  have hinv : accInv st.sampler := by
    rw [hst]
    exact accInv_run _ _ _ (by exact ⟨fun _ => rfl, fun _ => rfl⟩)
  exact ⟨hinv, fun hr hn => hr (hinv.mp hn)⟩

/-- C8: the averages computed at a report boundary are exactly
`sum[k] / foldCount` for every accumulated key; and at a boundary whose
window had no successful fold (`foldCount = 0`), nothing is emitted and the
accumulator is empty with a zero count afterwards. -/
theorem c8_averages_and_empty_window (wait ts0 : ℚ) (gb : Bool) (evs : List Ev)
    (st : DaemonState) (hst : st = run wait (initState gb ts0) evs)
    (tb : Bool) (p : ℤ) (e : ℚ) :
    (∀ k : String,
        getD (get_average_readouts st.sampler) k 0
          = getD st.sampler.readouts k 0 / (st.sampler.num_readouts : ℚ))
    ∧ (st.sampler.num_readouts = 0 →
        (report_step wait tb p e st).2 = []
        ∧ ((report_step wait tb p e st).1).sampler.readouts = []
        ∧ ((report_step wait tb p e st).1).sampler.num_readouts = 0) := by
  constructor
  · intro k
    exact getD_map_div _ _ _
  · intro h0
    have hinv : accInv st.sampler := by
      rw [hst]
      exact accInv_run _ _ _ (by exact ⟨fun _ => rfl, fun _ => rfl⟩)
    have hre : st.sampler.readouts = [] := hinv.mp h0
    have havg : get_average_readouts st.sampler = [] := by
      simp [get_average_readouts, hre]
    simp only [report_step]
    split
    · simp [havg, clear_readouts]
    · simp [hre, h0]

lemma report_core_frozen (wait : ℚ) (tb : Bool) (p : ℤ) (e : ℚ) (it : IterState)
    (b : Bool) (h : it.fallback = some b) :
    ((report_core wait tb p e it).1).fallback = some b := by
  cases b with
  | true => simp [report_core, h]
  | false =>
      simp only [report_core, h]
      split
      · simp_all
      · split <;> rfl

lemma report_core_sec_val (wait : ℚ) (tb : Bool) (p : ℤ) (e : ℚ) (it : IterState)
    (h : it.fallback = some true) :
    (report_core wait tb p e it).2 = it.seconds_since_started + pyRound e := by
  simp [report_core, h]

lemma report_core_sec_seconds (wait : ℚ) (tb : Bool) (p : ℤ) (e : ℚ) (it : IterState)
    (h : it.fallback = some true) :
    ((report_core wait tb p e it).1).seconds_since_started
      = it.seconds_since_started + pyRound e := by
  simp [report_core, h]

lemma dstep_iter_sample (wait : ℚ) (st : DaemonState)
    (res : Except Unit (HostReadings × Except Unit (List GpuReading))) (now : ℚ) :
    ((dstep wait st (.sample res now)).1).iter = st.iter := by
  rcases res with e | hg <;> rfl

lemma fallback_frozen_run (wait : ℚ) (st : DaemonState) (b : Bool)
    (h : st.iter.fallback = some b) (evs : List Ev) :
    ((run wait st evs).iter).fallback = some b := by
  induction evs generalizing st with
  | nil => exact h
  | cons ev evs ih =>
      cases ev with
      | sample res now =>
          exact ih _ (by rw [dstep_iter_sample]; exact h)
      | report tb p e =>
          refine ih _ ?_
          show ((report_step wait tb p e st).1).iter.fallback = some b
          rw [report_step_iter]
          exact report_core_frozen _ _ _ _ _ _ h

/-- C5: once the fallback-mode decision is resolved to `some b` it is frozen
for the rest of the run; while seconds mode (`some true`) is active, every
later boundary reports exactly the running `seconds_since_started`; and a
run that is in external mode (`some false`) can never later be in seconds
mode. -/
theorem c5_mode_frozen (wait : ℚ) (st : DaemonState) (b : Bool)
    (hb : st.iter.fallback = some b) (evs : List Ev) (tb : Bool) (p : ℤ) (e : ℚ) :
    ((run wait st evs).iter).fallback = some b
    ∧ (b = true →
        (report_core wait tb p e (run wait st evs).iter).2
          = ((run wait st evs).iter).seconds_since_started + pyRound e)
    ∧ (b = false → ((run wait st evs).iter).fallback ≠ some true) := by
  have hf := fallback_frozen_run wait st b hb evs
  refine ⟨hf, fun hbt => ?_, fun hbf hcontra => ?_⟩
  · exact report_core_sec_val _ _ _ _ _ (by rw [hf, hbt])
  · rw [hf, hbf] at hcontra
    exact Bool.false_ne_true (Option.some.inj hcontra)

/-- C6 as stated is refuted: with seconds mode active and an inter-boundary
elapsed time that rounds to zero seconds (here a boundary 1/4 s after the
previous one, possible when `report_frequency_sec < 0.5`), the next
boundary reports the same iteration, not a strictly greater one.  The
state is reached from construction with `wait_for_first_iteration = 5`. -/
theorem c6_not_strictly_increasing :
    ((report_core 5 false 0 10 (initState false 0).iter).1).fallback = some true
    ∧ (report_core 5 false 0 (1/4)
          ((report_core 5 false 0 10 (initState false 0).iter).1)).2
        = (report_core 5 false 0 10 (initState false 0).iter).2 := by
  constructor
  · norm_num [report_core, initState, pyRound, round_eq]
  · norm_num [report_core, initState, pyRound, round_eq]

/-- C6 (amended): in seconds-fallback mode the iteration reported at a
boundary exceeds the previous boundary's by exactly the rounded elapsed
seconds; it is strictly greater provided that rounded elapsed time is at
least one second (which holds whenever the report interval is at least
half a second). -/
theorem c6_seconds_increase (wait : ℚ) (it : IterState) (hb : it.fallback = some true)
    (tb1 : Bool) (p1 : ℤ) (e1 : ℚ) (tb2 : Bool) (p2 : ℤ) (e2 : ℚ)
    (he : 1 ≤ pyRound e2) :
    (report_core wait tb2 p2 e2 ((report_core wait tb1 p1 e1 it).1)).2
      = (report_core wait tb1 p1 e1 it).2 + pyRound e2
    ∧ (report_core wait tb1 p1 e1 it).2
      < (report_core wait tb2 p2 e2 ((report_core wait tb1 p1 e1 it).1)).2 := by
  have hf : ((report_core wait tb1 p1 e1 it).1).fallback = some true := by
    simp [report_core, hb]
  have h1 := report_core_sec_val wait tb1 p1 e1 it hb
  have h2 := report_core_sec_val wait tb2 p2 e2 _ hf
  have h3 := report_core_sec_seconds wait tb1 p1 e1 it hb
  rw [h2, h3, h1]
  omega

lemma intTrunc_lt_of_le (d t x : ℤ) (hd : 1 ≤ d) (ht : 1 ≤ t) (hx0 : 0 ≤ x)
    (hxt : x ≤ t) :
    intTrunc ((19/20 : ℚ) * (d : ℚ) * (x : ℚ) / (t : ℚ)) < d := by
  have htq : (0 : ℚ) < (t : ℚ) := by exact_mod_cast lt_of_lt_of_le Int.zero_lt_one ht
  have hdq : (1 : ℚ) ≤ (d : ℚ) := by exact_mod_cast hd
  have hxq0 : (0 : ℚ) ≤ (x : ℚ) := by exact_mod_cast hx0
  have hxq : (x : ℚ) ≤ (t : ℚ) := by exact_mod_cast hxt
  have hq0 : (0 : ℚ) ≤ (19/20 : ℚ) * (d : ℚ) * (x : ℚ) / (t : ℚ) := by
    apply div_nonneg _ (le_of_lt htq)
    nlinarith
  have hlt : (19/20 : ℚ) * (d : ℚ) * (x : ℚ) / (t : ℚ) < (d : ℚ) := by
    rw [div_lt_iff₀ htq]
    nlinarith [mul_le_mul_of_nonneg_left hxq (by linarith : (0:ℚ) ≤ (d:ℚ)),
      mul_pos (by linarith : (0:ℚ) < (d:ℚ)) htq]
  rw [intTrunc, if_pos hq0]
  exact Int.floor_lt.mpr hlt

lemma report_core_stalled (wait : ℚ) (tb : Bool) (elapsed : ℚ) (it : IterState)
    (d t : ℤ) (hfb : it.fallback = some false)
    (hint : it.last_iteration_interval = some (d, t)) :
    (report_core wait tb it.last_iteration elapsed it).2
      = it.last_iteration
        + intTrunc ((19/20 : ℚ) * (d : ℚ)
            * ((it.seconds_since_started + pyRound elapsed - it.last_iteration_ts : ℤ) : ℚ)
            / (t : ℚ)) := by
  simp [report_core, hfb, hint]

/-- C2 as stated is refuted: external mode, interval `(10, 10)` recorded at
a boundary reached from construction, counter stalled at 10.  At a later
boundary with `secondsSinceStart = 30` the synthesized iteration is
`10 + int(0.95*10*20/10) = 29`, which is not strictly less than
`lastIteration + iterationDelta = 20`: the guarantee fails once the stall
outlasts the recorded time delta. -/
theorem c2_stall_can_overtake :
    ((run 180 (initState false 0) [Ev.report false 10 10]).iter).fallback = some false
    ∧ ((run 180 (initState false 0) [Ev.report false 10 10]).iter).last_iteration = 10
    ∧ ((run 180 (initState false 0) [Ev.report false 10 10]).iter).last_iteration_interval
        = some (10, 10)
    ∧ ¬ ((report_core 180 false 10 20
          ((run 180 (initState false 0) [Ev.report false 10 10]).iter)).2 < 10 + 10) := by
  have hp10 : pyRound 10 = 10 := by norm_num [pyRound, round_eq]
  have hp20 : pyRound 20 = 20 := by norm_num [pyRound, round_eq]
  have hc1 : ¬((180 : ℚ) ≤ (10 : ℚ)) := by norm_num
  have h1 : (run 180 (initState false 0) [Ev.report false 10 10]).iter
      = { seconds_since_started := 10, last_iteration := 10, last_iteration_ts := 10,
          last_iteration_interval := some (10, 10), repeated_iterations := 0,
          fallback := some false } := by
    simp [run, dstep, report_step, report_core, initState, hp10, hc1, clear_readouts]
  rw [h1]
  have h2 : (report_core 180 false 10 20
      ({ seconds_since_started := 10, last_iteration := 10, last_iteration_ts := 10,
         last_iteration_interval := some (10, 10), repeated_iterations := 0,
         fallback := some false } : IterState)).2 = 29 := by
    simp [report_core, hp20]
    norm_num [intTrunc]
  rw [h2]
  norm_num

/-- C2 (amended): in external mode with a stalled counter and a known prior
interval `(d, t)` with `d ≥ 1`, `t ≥ 1`, the synthesized iteration
`lastIteration + int(0.95*d*(secondsSinceStart - lastIterationTimestamp)/t)`
is strictly below `lastIteration + d` as long as the time since the last
advance has not exceeded the recorded time delta `t` (the 0.95 damping only
protects within one interval length; see `c2_stall_can_overtake`). -/
theorem c2_damped_extrapolation (wait : ℚ) (tb : Bool) (elapsed : ℚ) (it : IterState)
    (d t : ℤ) (hfb : it.fallback = some false)
    (hint : it.last_iteration_interval = some (d, t))
    (hd : 1 ≤ d) (ht : 1 ≤ t)
    (hx0 : it.last_iteration_ts ≤ it.seconds_since_started + pyRound elapsed)
    (hxt : it.seconds_since_started + pyRound elapsed - it.last_iteration_ts ≤ t) :
    (report_core wait tb it.last_iteration elapsed it).2 < it.last_iteration + d := by
  rw [report_core_stalled wait tb elapsed it d t hfb hint]
  have h := intTrunc_lt_of_le d t
    (it.seconds_since_started + pyRound elapsed - it.last_iteration_ts)
    hd ht (by omega) hxt
  omega

lemma host_stats_no_gpu (h : HostReadings) :
    (host_stats h).all (fun kv => !(strStarts kv.1 "gpu_")) = true := by
  rcases hc : h.coretemps with _ | ⟨t, ts⟩ <;> simp [host_stats, hc] <;> decide

lemma gpuInv_machine (h : HostReadings) (gq : Except Unit (List GpuReading))
    (g : GpuState) (hg : gpuInv g) : gpuInv (machine_stats h gq g).2 := by
  by_cases he : g.enabled
  · rcases gq with e | gpus
    · simp only [machine_stats, he, if_true]
      split
      · intro _; rfl
      · intro h3
        exact absurd h3 (by assumption)
    · simpa [machine_stats, he] using hg
  · simpa [machine_stats, he] using hg

lemma gpuInv_dstep (wait : ℚ) (st : DaemonState) (ev : Ev) (hg : gpuInv st.gpu) :
    gpuInv ((dstep wait st ev).1).gpu := by
  cases ev with
  | sample res now =>
      rcases res with e | hgq
      · exact hg
      · exact gpuInv_machine _ _ _ hg
  | report tb p e =>
      show gpuInv ((report_step wait tb p e st).1).gpu
      rw [report_step_gpu]
      exact hg

lemma gpuInv_run (wait : ℚ) (st : DaemonState) (evs : List Ev) (hg : gpuInv st.gpu) :
    gpuInv (run wait st evs).gpu := by
  induction evs generalizing st with
  | nil => exact hg
  | cons ev evs ih => exact ih _ (gpuInv_dstep _ _ _ hg)

lemma machine_stats_disabled (h : HostReadings) (gq : Except Unit (List GpuReading))
    (g : GpuState) (hd : g.enabled = false) :
    (machine_stats h gq g).1 = host_stats h ∧ (machine_stats h gq g).2 = g := by
  simp [machine_stats, hd]

lemma dstep_gpu_disabled (wait : ℚ) (st : DaemonState) (ev : Ev)
    (hd : st.gpu.enabled = false) : ((dstep wait st ev).1).gpu = st.gpu := by
  cases ev with
  | sample res now =>
      rcases res with e | hgq
      · rfl
      · exact (machine_stats_disabled _ _ _ hd).2
  | report tb p e => exact report_step_gpu _ _ _ _ _

lemma run_gpu_disabled (wait : ℚ) (st : DaemonState) (evs : List Ev)
    (hd : st.gpu.enabled = false) : (run wait st evs).gpu = st.gpu := by
  induction evs generalizing st with
  | nil => rfl
  | cons ev evs ih =>
      have h1 := dstep_gpu_disabled wait st ev hd
      show (run wait (dstep wait st ev).1 evs).gpu = st.gpu
      rw [ih _ (by rw [h1]; exact hd), h1]

lemma runSnaps_disabled (wait : ℚ) (st : DaemonState) (evs : List Ev)
    (hd : st.gpu.enabled = false) :
    (runSnaps wait st evs).all (fun s => s.all (fun kv => !(strStarts kv.1 "gpu_")))
      = true := by
  induction evs generalizing st with
  | nil => rfl
  | cons ev evs ih =>
      have h1 := dstep_gpu_disabled wait st ev hd
      have htail := ih ((dstep wait st ev).1) (by rw [h1]; exact hd)
      cases ev with
      | sample res now =>
          rcases res with e | hgq
          · simpa [runSnaps] using htail
          · have hm := (machine_stats_disabled hgq.1 hgq.2 st.gpu hd).1
            simp [runSnaps, hm, host_stats_no_gpu, htail]
      | report tb p e => simpa [runSnaps] using htail

/-- C7: in any state reachable from construction in which the accelerator
failure counter has reached 3, querying is already switched off, it stays
off for the whole remainder of the run (one-way transition), and no
snapshot produced from then on contains a `gpu_`-prefixed key — even when
later queries would succeed. -/
theorem c7_disable_permanent (wait ts0 : ℚ) (gb : Bool) (evs : List Ev)
    (st : DaemonState) (hst : st = run wait (initState gb ts0) evs)
    (h3 : 3 ≤ st.gpu.fail) (more : List Ev) :
    st.gpu.enabled = false
    ∧ ((run wait st more).gpu).enabled = false
    ∧ (runSnaps wait st more).all (fun s => s.all (fun kv => !(strStarts kv.1 "gpu_")))
        = true := by
  have hinv : gpuInv st.gpu := by
    rw [hst]
    exact gpuInv_run _ _ _ (fun hf => absurd hf (by simp [initState]))
  have hd := hinv h3
  exact ⟨hd, by rw [run_gpu_disabled _ _ _ hd]; exact hd, runSnaps_disabled _ _ _ hd⟩

lemma machine_stats_error_fst (h : HostReadings) (g : GpuState) (u : Unit) :
    (machine_stats h (.error u) g).1 = host_stats h := by
  by_cases he : g.enabled <;> simp [machine_stats, he]
  split <;> rfl

/-- C10: when the gpu query raises, the snapshot still contains every host
key — cpu usage, memory used/free, disk free percent, network tx/rx, disk
read/write — and contains no `gpu_`-prefixed key at all; collection is not
aborted. -/
theorem c10_gpu_failure_keeps_host_keys (h : HostReadings) (g : GpuState) :
    "cpu_usage" ∈ (machine_stats h (.error ()) g).1.map Prod.fst
    ∧ "memory_used_gb" ∈ (machine_stats h (.error ()) g).1.map Prod.fst
    ∧ "memory_free_gb" ∈ (machine_stats h (.error ()) g).1.map Prod.fst
    ∧ "disk_free_percent" ∈ (machine_stats h (.error ()) g).1.map Prod.fst
    ∧ "network_tx_mbs" ∈ (machine_stats h (.error ()) g).1.map Prod.fst
    ∧ "network_rx_mbs" ∈ (machine_stats h (.error ()) g).1.map Prod.fst
    ∧ "io_read_mbs" ∈ (machine_stats h (.error ()) g).1.map Prod.fst
    ∧ "io_write_mbs" ∈ (machine_stats h (.error ()) g).1.map Prod.fst
    ∧ (machine_stats h (.error ()) g).1.all (fun kv => !(strStarts kv.1 "gpu_"))
        = true := by
  rw [machine_stats_error_fst h g ()]
  refine ⟨?_, ?_, ?_, ?_, ?_, ?_, ?_, ?_, host_stats_no_gpu h⟩ <;>
    rcases hc : h.coretemps with _ | ⟨t, ts⟩ <;> simp [host_stats, hc]

/-- C1 as stated is refuted: a report boundary reached from construction
with the fallback mode still unresolved (`None`) does not clear the
accumulator — `_clear_readouts` (line 113) sits inside the
`fallback_to_sec_as_iterations is not None` guard (line 103).  After one
successful fold and a boundary within the grace period with a stalled
external counter, the fold count is still 1 and the sums map nonempty. -/
theorem c1_unresolved_boundary_keeps_sums :
    ((run 180 (initState false 0) [sampleOk 1, Ev.report false 0 2]).iter).fallback = none
    ∧ (run 180 (initState false 0) [sampleOk 1, Ev.report false 0 2]).sampler.num_readouts ≠ 0
    ∧ (run 180 (initState false 0) [sampleOk 1, Ev.report false 0 2]).sampler.readouts ≠ [] := by
  have hp2 : pyRound 2 = 2 := by norm_num [pyRound, round_eq]
  have hc : ¬((180 : ℚ) ≤ (2 : ℚ)) := by norm_num
  have hrun : run 180 (initState false 0) [sampleOk 1, Ev.report false 0 2]
      = (report_step 180 false 0 2 ((dstep 180 (initState false 0) (sampleOk 1)).1)).1 := rfl
  have hiter : ((dstep 180 (initState false 0) (sampleOk 1)).1).iter
      = (initState false 0).iter := rfl
  have hfb : (report_core 180 false 0 2
      ((dstep 180 (initState false 0) (sampleOk 1)).1).iter).1.fallback = none := by
    rw [hiter]
    simp [report_core, initState, hp2, hc]
  have hnosome : (report_core 180 false 0 2
      ((dstep 180 (initState false 0) (sampleOk 1)).1).iter).1.fallback.isSome = false := by
    rw [hfb]; rfl
  have hnoclear : (report_step 180 false 0 2
        ((dstep 180 (initState false 0) (sampleOk 1)).1)).1.sampler
      = ((dstep 180 (initState false 0) (sampleOk 1)).1).sampler := by
    simp [report_step, hnosome]
  refine ⟨?_, ?_, ?_⟩
  · rw [hrun, report_step_iter, hfb]
  · rw [hrun, hnoclear]
    simp [dstep, update_readouts, sampleOk]
  · rw [hrun, hnoclear]
    exact update_readouts_ne_nil _ _ _ (machine_stats_fst_ne_nil _ _ _)

/-- C1 (amended): at a report boundary the accumulator is cleared exactly
when the fallback mode is resolved after the boundary's decision step; when
it is still unresolved (`None`), nothing is emitted and the whole sampling
accumulator — sums and fold count — carries over unchanged into the next
window. -/
theorem c1_clear_iff_resolved (wait : ℚ) (tb : Bool) (p : ℤ) (e : ℚ)
    (st : DaemonState) :
    (((report_step wait tb p e st).1).iter.fallback.isSome = true →
        ((report_step wait tb p e st).1).sampler.readouts = []
        ∧ ((report_step wait tb p e st).1).sampler.num_readouts = 0)
    ∧ (((report_step wait tb p e st).1).iter.fallback = none →
        (report_step wait tb p e st).2 = []
        ∧ ((report_step wait tb p e st).1).sampler = st.sampler) := by
  by_cases hc : (report_core wait tb p e st.iter).1.fallback.isSome = true
  · constructor
    · intro _
      simp [report_step, hc, clear_readouts]
    · intro hn
      rw [report_step_iter] at hn
      rw [hn] at hc
      simp at hc
  · constructor
    · intro hs
      rw [report_step_iter] at hs
      exact absurd hs hc
    · intro _
      simp [report_step, hc]

/-- Witness for `c1_clear_iff_resolved`: with tensorboard active the mode
resolves at the boundary and the accumulator of a fresh daemon is cleared. -/
theorem c1_clear_iff_resolved_witness :
    ((report_step 180 true 0 30 (initState false 0)).1).sampler.readouts = []
    ∧ ((report_step 180 true 0 30 (initState false 0)).1).sampler.num_readouts = 0 :=
  (c1_clear_iff_resolved 180 true 0 30 (initState false 0)).1 (by
    rw [report_step_iter]
    simp [report_core, initState])

/-- Witness for `c2_damped_extrapolation`: interval `(10, 10)`, stall of 5
seconds since the last advance — the synthesized iteration stays below 20. -/
theorem c2_damped_extrapolation_witness :
    (report_core 180 false 10 2 c2it).2 < 10 + 10 :=
  c2_damped_extrapolation 180 false 2 c2it 10 10 rfl rfl (by norm_num) (by norm_num)
    (by norm_num [c2it, pyRound, round_eq]) (by norm_num [c2it, pyRound, round_eq])

/-- Witness for `c4_cumulative_rate` at a first observation of
`network_tx_mbs`. -/
theorem c4_cumulative_rate_witness :
    getD (update_readouts c4st c4snap 2).readouts "network_tx_mbs" 0
      = getD c4st.readouts "network_tx_mbs" 0
        + ((7 : ℚ) - getD c4st.previous_readouts "network_tx_mbs" 7)
          / (2 - c4st.previous_readouts_ts)
    ∧ (update_readouts c4st c4snap 2).previous_readouts = c4snap
    ∧ ("network_tx_mbs" ∉ c4st.previous_readouts.map Prod.fst →
        getD (update_readouts c4st c4snap 2).readouts "network_tx_mbs" 0
          = getD c4st.readouts "network_tx_mbs" 0) :=
  c4_cumulative_rate c4st c4snap 2 "network_tx_mbs" 7 (by simp [c4snap]) (by simp [c4snap])
    (by decide) (by norm_num [c4st])

/-- Witness for `c5_mode_frozen` from a state already in seconds mode. -/
theorem c5_mode_frozen_witness :
    ((run 180 c5st []).iter).fallback = some true
    ∧ (true = true →
        (report_core 180 false 0 2 (run 180 c5st []).iter).2
          = ((run 180 c5st []).iter).seconds_since_started + pyRound 2)
    ∧ (true = false → ((run 180 c5st []).iter).fallback ≠ some true) :=
  c5_mode_frozen 180 c5st true rfl [] false 0 2

/-- Witness for `c6_seconds_increase` with a second boundary 3 seconds after
the first. -/
theorem c6_seconds_increase_witness :
    (report_core 180 false 0 3 ((report_core 180 false 0 2 c6it).1)).2
      = (report_core 180 false 0 2 c6it).2 + pyRound 3
    ∧ (report_core 180 false 0 2 c6it).2
      < (report_core 180 false 0 3 ((report_core 180 false 0 2 c6it).1)).2 :=
  c6_seconds_increase 180 c6it rfl false 0 2 false 0 3 (by norm_num [pyRound, round_eq])

/-- Witness for `c7_disable_permanent`: three failing queries reach the
threshold; a later tick with a succeeding query still yields no gpu key. -/
theorem c7_disable_permanent_witness :
    (run 180 (initState true 0) [sampleOk 1, sampleOk 2, sampleOk 3]).gpu.enabled = false
    ∧ ((run 180 (run 180 (initState true 0) [sampleOk 1, sampleOk 2, sampleOk 3])
          [sampleGpu 4]).gpu).enabled = false
    ∧ (runSnaps 180 (run 180 (initState true 0) [sampleOk 1, sampleOk 2, sampleOk 3])
          [sampleGpu 4]).all
        (fun s => s.all (fun kv => !(strStarts kv.1 "gpu_"))) = true := by
  have k1 : ((dstep 180 (initState true 0) (sampleOk 1)).1).gpu
      = { enabled := true, fail := 1 } := by
    show (machine_stats exHost (.error ()) (initState true 0).gpu).2 = _
    simp [machine_stats, initState]
  have k2 : ((dstep 180 ((dstep 180 (initState true 0) (sampleOk 1)).1) (sampleOk 2)).1).gpu
      = { enabled := true, fail := 2 } := by
    show (machine_stats exHost (.error ())
        ((dstep 180 (initState true 0) (sampleOk 1)).1).gpu).2 = _
    rw [k1]
    simp [machine_stats]
  have k3 : (run 180 (initState true 0) [sampleOk 1, sampleOk 2, sampleOk 3]).gpu
      = { enabled := false, fail := 3 } := by
    show (machine_stats exHost (.error ())
        ((dstep 180 ((dstep 180 (initState true 0) (sampleOk 1)).1) (sampleOk 2)).1).gpu).2 = _
    rw [k2]
    simp [machine_stats]
  exact c7_disable_permanent 180 0 true [sampleOk 1, sampleOk 2, sampleOk 3] _ rfl
    (by rw [k3]) [sampleGpu 4]

/-- Witness for `c8_averages_and_empty_window` on the empty window of a
fresh daemon. -/
theorem c8_averages_and_empty_window_witness :
    getD (get_average_readouts (initState false 0).sampler) "cpu_usage" 0
      = getD (initState false 0).sampler.readouts "cpu_usage" 0
        / (((initState false 0).sampler.num_readouts : ℕ) : ℚ)
    ∧ ((report_step 180 false 0 30 (initState false 0)).2 = []
        ∧ ((report_step 180 false 0 30 (initState false 0)).1).sampler.readouts = []
        ∧ ((report_step 180 false 0 30 (initState false 0)).1).sampler.num_readouts = 0) :=
  ⟨(c8_averages_and_empty_window 180 0 false [] _ rfl false 0 30).1 "cpu_usage",
   (c8_averages_and_empty_window 180 0 false [] _ rfl false 0 30).2 rfl⟩

/-- Witness for `c9_count_zero_iff_empty`: after one successful fold the
sums map is nonempty, so the fold count is nonzero. -/
theorem c9_count_zero_iff_empty_witness :
    (run 180 (initState false 0) [sampleOk 1]).sampler.num_readouts ≠ 0 :=
  (c9_count_zero_iff_empty 180 0 false [sampleOk 1] _ rfl).2
    (update_readouts_ne_nil _ _ _ (machine_stats_fst_ne_nil _ _ _))

end TrainsMonitor
